import Mathlib

/-!
Shallow embedding of the Fin-Pulse ingestion core
(src/app/core/etl/ingest.py) and verification of its specification.

Python values are modelled by `PyVal`; dictionaries are association lists;
byte strings are `List Nat` (each entry < 256); the SQLAlchemy session is
modelled by an explicit storage state (`DBState`) plus an environment
(`SaveEnv`) that decides which row-level operations raise and whether the
final commit raises.
-/

namespace FinPulse

/-- Model of the Python values flowing through the pipeline: JSON scalars,
strings, lists, dicts, plus an abstract instant produced by
`datetime.fromtimestamp(ms / 1000).isoformat()`, represented by its
millisecond epoch argument. -/
inductive PyVal where
  | none
  | bool (b : Bool)
  | int (n : Int)
  | str (s : String)
  | list (xs : List PyVal)
  | dict (fs : List (String × PyVal))
  | instantIso (ms : Int)

/-- Python truthiness: `None`, `False`, `0`, `""`, `[]`, `{}` are falsy. -/
def truthy : PyVal → Bool
  | .none => false
  | .bool b => b
  | .int n => n != 0
  | .str s => !s.isEmpty
  | .list xs => !xs.isEmpty
  | .dict fs => !fs.isEmpty
  | .instantIso _ => true

/-- Python `str()` on the scalars the pipeline stringifies. Containers and
instants are rendered approximately (no claim ever stringifies a container;
Python would render element text and quoting that this model does not
reproduce). -/
def pyStr : PyVal → String
  | .none => "None"
  | .bool b => if b then "True" else "False"
  | .int n => toString n
  | .str s => s
  | .list _ => "[...]"
  | .dict _ => "\x7b...\x7d"
  | .instantIso ms => "datetime(" ++ toString ms ++ ")"

/-- Python `dict.get(k)`: value of the first binding of `k`, `None` when
absent. -/
def pyGet (fs : List (String × PyVal)) (k : String) : PyVal :=
  match fs.find? (fun kv => kv.1 == k) with
  | some kv => kv.2
  | Option.none => .none

/-- Python `dict.get(k, d)` with an explicit default. -/
def pyGetD (fs : List (String × PyVal)) (k : String) (d : PyVal) : PyVal :=
  match fs.find? (fun kv => kv.1 == k) with
  | some kv => kv.2
  | Option.none => d

/-- Python `a or b`: `a` when truthy, else `b`. -/
def pyOr (a b : PyVal) : PyVal :=
  if truthy a then a else b

/-- An `or`-chain `get k1 or get k2 or ... or get kn` over candidate keys,
as used pervasively in `to_standard_format`. -/
def chainGet (raw : List (String × PyVal)) : List String → PyVal
  | [] => .none
  | [k] => pyGet raw k
  | k :: k2 :: ks => pyOr (pyGet raw k) (chainGet raw (k2 :: ks))

/-! ### SHA-256 (model of `hashlib.sha256(...).hexdigest()`)
Bytes and 32-bit words are `Nat` with explicit reduction mod `2 ^ 32`. -/

/-- `2 ^ 32`, the 32-bit word modulus. -/
def M32 : Nat := 4294967296

/-- 32-bit rotate-right, on Nat with an explicit final reduction. -/
def rotr (n x : Nat) : Nat :=
  ((x >>> n) ||| (x <<< (32 - n))) % M32

/-- Bitwise complement of a 32-bit word. -/
def not32 (x : Nat) : Nat :=
  (M32 - 1) ^^^ x

/-- UTF-8 encoding of one character. -/
def utf8Char (c : Char) : List Nat :=
  let n := c.toNat
  if n < 128 then [n]
  else if n < 2048 then [192 + n / 64, 128 + n % 64]
  else if n < 65536 then [224 + n / 4096, 128 + (n / 64) % 64, 128 + n % 64]
  else [240 + n / 262144, 128 + (n / 4096) % 64, 128 + (n / 64) % 64, 128 + n % 64]

/-- UTF-8 encoding of a string (Python `str.encode()`). -/
def utf8Encode (s : String) : List Nat :=
  s.data.foldr (fun c acc => utf8Char c ++ acc) []

/-- The SHA-256 round constants. -/
def shaK : List Nat :=
  [1116352408, 1899447441, 3049323471, 3921009573, 961987163,
   1508970993, 2453635748, 2870763221, 3624381080, 310598401,
   607225278, 1426881987, 1925078388, 2162078206, 2614888103,
   3248222580, 3835390401, 4022224774, 264347078, 604807628,
   770255983, 1249150122, 1555081692, 1996064986, 2554220882,
   2821834349, 2952996808, 3210313671, 3336571891, 3584528711,
   113926993, 338241895, 666307205, 773529912, 1294757372,
   1396182291, 1695183700, 1986661051, 2177026350, 2456956037,
   2730485921, 2820302411, 3259730800, 3345764771, 3516065817,
   3600352804, 4094571909, 275423344, 430227734, 506948616,
   659060556, 883997877, 958139571, 1322822218, 1537002063,
   1747873779, 1955562222, 2024104815, 2227730452, 2361852424,
   2428436474, 2756734187, 3204031479, 3329325298]

/-- The SHA-256 initial hash state. -/
def shaH0 : List Nat :=
  [1779033703, 3144134277, 1013904242, 2773480762,
   1359893119, 2600822924, 528734635, 1541459225]

/-- Big-endian 8-byte encoding of a length value. -/
def be64 (n : Nat) : List Nat :=
  [(n >>> 56) % 256, (n >>> 48) % 256, (n >>> 40) % 256, (n >>> 32) % 256,
   (n >>> 24) % 256, (n >>> 16) % 256, (n >>> 8) % 256, n % 256]

/-- SHA-256 message padding: append `0x80`, zero bytes to 56 mod 64, then the
bit length as 8 big-endian bytes. -/
def sha256pad (msg : List Nat) : List Nat :=
  let len := msg.length
  let zeros := (120 - ((len + 1) % 64)) % 64
  msg ++ [128] ++ List.replicate zeros 0 ++ be64 (len * 8)

/-- Big-endian grouping of bytes into 32-bit words. -/
def toWords : List Nat → List Nat
  | a :: b :: c :: d :: rest => (((a * 256 + b) * 256 + c) * 256 + d) :: toWords rest
  | _ => []

/-- Splits a word list into blocks of 16; `fuel` bounds the recursion and is
instantiated with the list length. -/
def chunksGo (fuel : Nat) (ws : List Nat) : List (List Nat) :=
  match fuel, ws with
  | 0, _ => []
  | _, [] => []
  | Nat.succ n, ws => ws.take 16 :: chunksGo n (ws.drop 16)

/-- Splits a word list into 16-word blocks. -/
def chunks (ws : List Nat) : List (List Nat) :=
  chunksGo ws.length ws

/-- SHA-256 small sigma 0. -/
def ssig0 (x : Nat) : Nat := (rotr 7 x) ^^^ (rotr 18 x) ^^^ (x >>> 3)

/-- SHA-256 small sigma 1. -/
def ssig1 (x : Nat) : Nat := (rotr 17 x) ^^^ (rotr 19 x) ^^^ (x >>> 10)

/-- Message-schedule extension: appends `steps` further words. -/
def extendW (steps : Nat) (w : List Nat) : List Nat :=
  match steps with
  | 0 => w
  | Nat.succ n =>
    let i := w.length
    let next := (ssig1 (w.getD (i - 2) 0) + w.getD (i - 7) 0
      + ssig0 (w.getD (i - 15) 0) + w.getD (i - 16) 0) % M32
    extendW n (w ++ [next])

/-- One SHA-256 compression round on the 8-word working state. -/
def shaRound (k w : Nat) : List Nat → List Nat
  | [a, b, c, d, e, f, g, h] =>
    let s1 := (rotr 6 e) ^^^ (rotr 11 e) ^^^ (rotr 25 e)
    let ch := (e &&& f) ^^^ (not32 e &&& g)
    let t1 := (h + s1 + ch + k + w) % M32
    let s0 := (rotr 2 a) ^^^ (rotr 13 a) ^^^ (rotr 22 a)
    let mj := (a &&& b) ^^^ (a &&& c) ^^^ (b &&& c)
    let t2 := (s0 + mj) % M32
    [(t1 + t2) % M32, a, b, c, (d + t1) % M32, e, f, g]
  | st => st

/-- SHA-256 compression of one 16-word block into the hash state. -/
def compress (h : List Nat) (block : List Nat) : List Nat :=
  let w := extendW 48 block
  let st := (shaK.zip w).foldl (fun st kw => shaRound kw.1 kw.2 st) h
  List.zipWith (fun x y => (x + y) % M32) h st

/-- Big-endian 4-byte encoding of a 32-bit word. -/
def be32 (n : Nat) : List Nat :=
  [(n >>> 24) % 256, (n >>> 16) % 256, (n >>> 8) % 256, n % 256]

/-- SHA-256 digest bytes of a byte message. -/
def sha256bytes (msg : List Nat) : List Nat :=
  let blocks := chunks (toWords (sha256pad msg))
  (blocks.foldl compress shaH0).foldr (fun x acc => be32 x ++ acc) []

/-- Lower-case hex digit. -/
def hexDigit (n : Nat) : Char :=
  if n < 10 then Char.ofNat (48 + n) else Char.ofNat (87 + n)

/-- Lower-case hex rendering of one byte. -/
def byteHex (b : Nat) : List Char :=
  [hexDigit (b / 16), hexDigit (b % 16)]

/-- `hashlib.sha256(msg).hexdigest()`: the 64-character hex digest. -/
def sha256hex (msg : List Nat) : String :=
  String.mk ((sha256bytes msg).foldr (fun b acc => byteHex b ++ acc) [])

/-- Validation of the SHA-256 model against the standard test vector. -/
theorem sha256hex_abc : sha256hex (utf8Encode "abc")
    = "ba7816bf8f01cfea414140de5dae2223b00361a396177a9cb410ff61f20015ad" := by
  decide

/-! ### Text decoding (`bytes.decode("utf-8")` and `bytes.decode("windows-1251")`) -/

/-- Is `b` a UTF-8 continuation byte? -/
def utf8Cont (b : Nat) : Bool := 128 ≤ b && b < 192

/-- Strict UTF-8 decoding (Python `bytes.decode("utf-8")`): rejects stray
continuation bytes, overlong forms, surrogates and out-of-range leaders;
`fuel` bounds the recursion and is instantiated with the byte count (each
step consumes at least one byte, so the fuel never runs out). -/
def utf8DecodeGo (fuel : Nat) (bs : List Nat) : Option (List Char) :=
  match fuel, bs with
  | _, [] => some []
  | 0, _ => Option.none
  | Nat.succ n, b :: rest =>
    if b < 128 then
      (utf8DecodeGo n rest).map (fun cs => Char.ofNat b :: cs)
    else if b < 194 then Option.none
    else if b < 224 then
      match rest with
      | b2 :: rest2 =>
        if utf8Cont b2 then
          (utf8DecodeGo n rest2).map (fun cs => Char.ofNat ((b - 192) * 64 + (b2 - 128)) :: cs)
        else Option.none
      | [] => Option.none
    else if b < 240 then
      match rest with
      | b2 :: b3 :: rest3 =>
        let okB2 :=
          if b == 224 then 160 ≤ b2 && b2 < 192
          else if b == 237 then 128 ≤ b2 && b2 < 160
          else utf8Cont b2
        if okB2 && utf8Cont b3 then
          (utf8DecodeGo n rest3).map
            (fun cs => Char.ofNat ((b - 224) * 4096 + (b2 - 128) * 64 + (b3 - 128)) :: cs)
        else Option.none
      | _ => Option.none
    else if b < 245 then
      match rest with
      | b2 :: b3 :: b4 :: rest4 =>
        let okB2 :=
          if b == 240 then 144 ≤ b2 && b2 < 192
          else if b == 244 then 128 ≤ b2 && b2 < 144
          else utf8Cont b2
        if okB2 && utf8Cont b3 && utf8Cont b4 then
          (utf8DecodeGo n rest4).map
            (fun cs => Char.ofNat ((b - 240) * 262144 + (b2 - 128) * 4096
              + (b3 - 128) * 64 + (b4 - 128)) :: cs)
        else Option.none
      | _ => Option.none
    else Option.none

/-- Python `bytes.decode("utf-8")`: `none` models `UnicodeDecodeError`. -/
def utf8Decode (bs : List Nat) : Option (List Char) :=
  utf8DecodeGo bs.length bs

/-- Codepoints of windows-1251 bytes `0x80`–`0xBF` (index `b - 128`);
`0` marks the single unassigned byte `0x98`. -/
def cp1251Table : List Nat :=
  [0x0402, 0x0403, 0x201A, 0x0453, 0x201E, 0x2026, 0x2020, 0x2021,
   0x20AC, 0x2030, 0x0409, 0x2039, 0x040A, 0x040C, 0x040B, 0x040F,
   0x0452, 0x2018, 0x2019, 0x201C, 0x201D, 0x2022, 0x2013, 0x2014,
   0, 0x2122, 0x0459, 0x203A, 0x045A, 0x045C, 0x045B, 0x045F,
   0x00A0, 0x040E, 0x045E, 0x0408, 0x00A4, 0x0490, 0x00A6, 0x00A7,
   0x0401, 0x00A9, 0x0404, 0x00AB, 0x00AC, 0x00AD, 0x00AE, 0x0407,
   0x00B0, 0x00B1, 0x0406, 0x0456, 0x0491, 0x00B5, 0x00B6, 0x00B7,
   0x0451, 0x2116, 0x0454, 0x00BB, 0x0458, 0x0405, 0x0455, 0x0457]

/-- windows-1251 decoding of one byte; fails only on the unassigned byte
`0x98` (and on values that are not bytes). -/
def cp1251Char (b : Nat) : Option Char :=
  if b < 128 then some (Char.ofNat b)
  else if b == 152 then Option.none
  else if b < 192 then some (Char.ofNat (cp1251Table.getD (b - 128) 0))
  else if b < 256 then some (Char.ofNat (1040 + (b - 192)))
  else Option.none

/-- Python `bytes.decode("windows-1251")`: `none` models
`UnicodeDecodeError`. -/
def cp1251Decode (bs : List Nat) : Option (List Char) :=
  bs.mapM cp1251Char

/-! ### CSV parsing (model of `csv.DictReader(io.StringIO(text))`) -/

/-- Splits a character list on a separator character. -/
def splitOnChar (sep : Char) : List Char → List (List Char)
  | [] => [[]]
  | c :: rest =>
    match splitOnChar sep rest with
    | [] => [[c]]
    | l :: ls => if c == sep then [] :: l :: ls else (c :: l) :: ls

/-- Drops a trailing carriage return (line-terminator handling of the
`csv` reader). -/
def stripCR (l : List Char) : List Char :=
  if l.getLast? == some '\r' then l.dropLast else l

/-- Prepends a character to the first field of a field list. -/
def consHead (c : Char) : List (List Char) → List (List Char)
  | [] => [[c]]
  | l :: ls => (c :: l) :: ls

/-- Splits one CSV line into fields on commas, honouring double-quoting
with doubled-quote escapes (default `csv` dialect). -/
def splitFieldsGo (fuel : Nat) (inQuote : Bool) (cs : List Char) : List (List Char) :=
  match fuel, cs with
  | _, [] => [[]]
  | 0, _ => [[]]
  | Nat.succ n, c :: rest =>
    if inQuote then
      if c == '"' then
        match rest with
        | q :: rest2 =>
          if q == '"' then consHead '"' (splitFieldsGo n true rest2)
          else splitFieldsGo n false rest
        | [] => splitFieldsGo n false rest
      else consHead c (splitFieldsGo n true rest)
    else
      if c == ',' then [] :: splitFieldsGo n false rest
      else if c == '"' then splitFieldsGo n true rest
      else consHead c (splitFieldsGo n false rest)

/-- Splits one CSV line into field strings. -/
def splitFields (cs : List Char) : List String :=
  (splitFieldsGo cs.length false cs).map String.mk

/-- `dict(zip(fieldnames, row))` with `restval=None` for missing values,
as `csv.DictReader` builds each row (surplus values beyond the header are
not modelled; headers are assumed distinct). -/
def zipRow : List String → List String → List (String × PyVal)
  | [], _ => []
  | k :: ks, [] => (k, PyVal.none) :: zipRow ks []
  | k :: ks, v :: vs => (k, PyVal.str v) :: zipRow ks vs

/-- Rows produced by `csv.DictReader` on decoded text: the first non-blank
line is the header, each later non-blank line becomes a field map (blank
lines yield no row). -/
def dictReaderRows (text : List Char) : List (List (String × PyVal)) :=
  let lines := ((splitOnChar '\n' text).map stripCR).filter (fun l => !l.isEmpty)
  match lines with
  | [] => []
  | header :: dataLines =>
    let fieldnames := splitFields header
    dataLines.map (fun l => zipRow fieldnames (splitFields l))

/-- Failure mode of the delimited-text reader: both decodings failed
(`UnicodeDecodeError` escaping `read_csv_file`). -/
inductive ReadError where
  | decodeError

/-- `read_csv_file`: decode as UTF-8, fall back to windows-1251 on failure,
parse with `csv.DictReader`, and drop rows whose values are all falsy. -/
def read_csv_file (file_bytes : List Nat) :
    Except ReadError (List (List (String × PyVal))) :=
  match utf8Decode file_bytes with
  | some text => .ok ((dictReaderRows text).filter (fun r => r.any (fun kv => truthy kv.2)))
  | Option.none =>
    match cp1251Decode file_bytes with
    | some text => .ok ((dictReaderRows text).filter (fun r => r.any (fun kv => truthy kv.2)))
    | Option.none => .error ReadError.decodeError

/-! ### Canonicalizer and fingerprint (`to_standard_format`, `generate_hash`) -/

/-- The canonical transaction dict built by `to_standard_format` (field
names as in the source; `source` is always a Python string). -/
structure StdTxn where
  date : PyVal
  amount : PyVal
  merchant : PyVal
  category : PyVal
  description : PyVal
  external_id : PyVal
  raw_payload : PyVal
  source : String
  transaction_hash : String

/-- `generate_hash`: sha256 hex digest of the UTF-8 bytes of
`f"{date}|{amount}|{merchant}|{source}"` (each field through `str()`). -/
def generate_hash (tnx : StdTxn) : String :=
  sha256hex (utf8Encode
    (pyStr tnx.date ++ "|" ++ pyStr tnx.amount ++ "|" ++ pyStr tnx.merchant
      ++ "|" ++ tnx.source))

/-- `to_standard_format`: resolves each canonical field through the
source's `or`-chain over candidate keys, stringifies a truthy
`external_id`, defaults `raw_payload` to the whole raw map, and attaches
the fingerprint. -/
def to_standard_format (raw_row : List (String × PyVal)) (source : String) : StdTxn :=
  let date := pyOr (pyGet raw_row "date") (pyOr (pyGet raw_row "Date")
    (pyOr (pyGet raw_row "created_at") (pyOr (pyGet raw_row "timestamp")
      (pyGet raw_row "Дата"))))
  let amount := pyOr (pyGet raw_row "amount") (pyOr (pyGet raw_row "Amount")
    (pyOr (pyGet raw_row "Сумма") (pyGet raw_row "value")))
  let merchant := pyOr (pyGet raw_row "merchant") (pyOr (pyGet raw_row "Merchant")
    (pyOr (pyGet raw_row "recipient") (pyOr (pyGet raw_row "payee")
      (pyGet raw_row "Получатель"))))
  let category := pyOr (pyGet raw_row "category") (pyOr (pyGet raw_row "Category")
    (pyGet raw_row "Категория"))
  let description := pyOr (pyGet raw_row "description") (pyOr (pyGet raw_row "Description")
    (pyOr (pyGet raw_row "note") (pyGet raw_row "Описание")))
  let external_id := pyOr (pyGet raw_row "id") (pyOr (pyGet raw_row "transaction_id")
    (pyGet raw_row "payment_id"))
  let standard : StdTxn :=
    { date := date
      amount := amount
      merchant := merchant
      category := category
      description := description
      external_id := if truthy external_id then .str (pyStr external_id) else .none
      raw_payload := pyGetD raw_row "raw_payload" (.dict raw_row)
      source := source
      transaction_hash := "" }
  { standard with transaction_hash := generate_hash standard }

/-! ### API response normalization (`normalize_api_response`) -/

/-- Python exceptions raised by the reader functions. -/
inductive PyErr where
  | valueError
  | attributeError
  | typeError

/-- `normalize_api_response`: a list is returned as-is; for a dict the
`or`-chain over `data`, `transactions` and `result.transactions` is
evaluated (the nested lookup raises `AttributeError` when a present
`result` is not a dict); anything else raises `ValueError`. -/
def normalize_api_response (data : PyVal) : Except PyErr PyVal :=
  match data with
  | .list xs => .ok (.list xs)
  | .dict fs =>
    let c1 := pyGet fs "data"
    if truthy c1 then .ok c1
    else
      let c2 := pyGet fs "transactions"
      if truthy c2 then .ok c2
      else
        match pyGetD fs "result" (.dict []) with
        | .dict rfs =>
          let c3 := pyGet rfs "transactions"
          .ok (if truthy c3 then c3 else .list [])
        | _ => .error PyErr.attributeError
  | _ => .error PyErr.valueError

/-! ### Webhook translator (`uzum_webhook_to_standard`) -/

/-- The RawRecord-shaped dict produced by `uzum_webhook_to_standard`. -/
structure UzumRecord where
  date : PyVal
  amount : PyVal
  merchant : PyVal
  category : PyVal
  description : PyVal
  external_id : PyVal
  raw_payload : PyVal
  source : String

/-- Numeric view of a Python value for `ts_ms / 1000` (Python `bool` is an
`int`); `none` models the `TypeError` of dividing a non-number. -/
def asMs : PyVal → Option Int
  | .int n => some n
  | .bool b => some (if b then 1 else 0)
  | _ => Option.none

/-- `uzum_webhook_to_standard`: picks `timestamp or transTime or
confirmTime`, converts a truthy value to an instant (raising `TypeError`
on a non-numeric one), and packages the fixed-merchant record. -/
def uzum_webhook_to_standard (payload : List (String × PyVal)) (event_type : String) :
    Except PyErr UzumRecord :=
  let ts_ms := pyOr (pyGet payload "timestamp")
    (pyOr (pyGet payload "transTime") (pyGet payload "confirmTime"))
  let dateRes : Except PyErr PyVal :=
    if truthy ts_ms then
      match asMs ts_ms with
      | some n => .ok (.instantIso n)
      | Option.none => .error PyErr.typeError
    else .ok .none
  match dateRes with
  | .error e => .error e
  | .ok d =>
    .ok { date := d
          amount := pyGet payload "amount"
          merchant := .str "Uzum Bank"
          category := .none
          description := .str ("Uzum webhook: " ++ event_type)
          external_id := pyGet payload "transId"
          raw_payload := .dict payload
          source := "uzum_webhook" }

/-! ### Batch loader (`save_to_database`)
The SQLAlchemy session is an explicit state: `committed` rows are visible
from earlier commits, `staged` rows are pending inserts of the current
call (visible to the dedup SELECT through autoflush). `SaveEnv` is the
environment: which 1-based row positions raise while being checked or
staged, and whether the final commit raises. -/

/-- A persisted `models.Transaction` row as constructed by the loader. -/
structure StoredTxn where
  owner_id : Int
  account_id : Option Int
  amount : String
  merchant : PyVal
  category : PyVal
  description : PyVal
  external_id : PyVal
  raw_payload : PyVal
  transaction_hash : String
  processed : Bool

/-- The storage state seen by one loader call. -/
structure DBState where
  committed : List StoredTxn
  staged : List StoredTxn

/-- Environment of one loader call: `stageFails idx = some msg` means the
row at 1-based position `idx` raises an exception rendered as `msg` while
being checked or staged; `commitFails` means the final commit raises. -/
structure SaveEnv where
  stageFails : Nat → Option String
  commitFails : Bool

/-- The result dict of `save_to_database`. -/
structure SaveResult where
  saved : Nat
  duplicates : Nat
  errors : List String

/-- The `models.Transaction(...)` constructor call of the loader (note the
source stringifies `amount` and omits any date column). -/
def mkStored (user_id : Int) (account_id : Option Int) (txn : StdTxn) : StoredTxn :=
  { owner_id := user_id
    account_id := account_id
    amount := pyStr txn.amount
    merchant := txn.merchant
    category := txn.category
    description := txn.description
    external_id := txn.external_id
    raw_payload := txn.raw_payload
    transaction_hash := txn.transaction_hash
    processed := false }

/-- The dedup SELECT: does any committed or staged row carry this hash? -/
def hashVisible (db : DBState) (h : String) : Bool :=
  (db.committed ++ db.staged).any (fun s => s.transaction_hash == h)

/-- One error entry, `f"Row {idx}: {str(e)}"`. -/
def rowError (idx : Nat) (msg : String) : String :=
  "Row " ++ toString idx ++ ": " ++ msg

/-- The per-row loop of `save_to_database`: each row either raises (error
entry recorded, loop continues), is a duplicate (skipped), or is staged. -/
def saveLoop (env : SaveEnv) (user_id : Int) (account_id : Option Int) :
    List StdTxn → Nat → DBState → SaveResult → DBState × SaveResult
  | [], _, db, acc => (db, acc)
  | txn :: rest, idx, db, acc =>
    match env.stageFails idx with
    | some msg =>
      saveLoop env user_id account_id rest (idx + 1) db
        { acc with errors := acc.errors ++ [rowError idx msg] }
    | Option.none =>
      if hashVisible db txn.transaction_hash then
        saveLoop env user_id account_id rest (idx + 1) db
          { acc with duplicates := acc.duplicates + 1 }
      else
        saveLoop env user_id account_id rest (idx + 1)
          { db with staged := db.staged ++ [mkStored user_id account_id txn] }
          { acc with saved := acc.saved + 1 }

/-- `save_to_database`: runs the per-row loop from position 1, then commits
once. A failing commit rolls back every staged insert and re-raises (the
`.error` case carries the rolled-back storage state); a successful commit
persists the staged rows and returns the result dict. -/
def save_to_database (transactions : List StdTxn) (user_id : Int)
    (account_id : Option Int) (env : SaveEnv) (db : DBState) :
    Except DBState (SaveResult × DBState) :=
  let r := saveLoop env user_id account_id transactions 1 db ⟨0, 0, []⟩
  if env.commitFails then .error { committed := db.committed, staged := [] }
  else .ok (r.2, { committed := r.1.committed ++ r.1.staged, staged := [] })

/-! ### CSV orchestrator (`ingest_from_csv`) -/

/-- The dict returned by the orchestrators. -/
structure IngestResult where
  total : Nat
  saved : Nat
  duplicates : Nat
  errors : List String

/-- Exceptions escaping `ingest_from_csv`. -/
inductive IngestError where
  | readError (e : ReadError)
  | commitError (db : DBState)

/-- `ingest_from_csv`: read and decode the CSV, canonicalize every row with
the given source tag, load the batch once, and report `total` alongside the
loader tallies. -/
def ingest_from_csv (file_content : List Nat) (user_id : Int)
    (account_id : Option Int) (env : SaveEnv) (db : DBState) (source : String) :
    Except IngestError (IngestResult × DBState) :=
  match read_csv_file file_content with
  | .error e => .error (.readError e)
  | .ok rows =>
    let transactions := rows.map (fun row => to_standard_format row source)
    match save_to_database transactions user_id account_id env db with
    | .error db2 => .error (.commitError db2)
    | .ok (res, db2) =>
      .ok ({ total := rows.length, saved := res.saved,
             duplicates := res.duplicates, errors := res.errors }, db2)

/-! ### Candidate key lists of `to_standard_format` -/

/-- Candidate source keys for the `date` field, in source order. -/
def dateKeys : List String := ["date", "Date", "created_at", "timestamp", "Дата"]

/-- Candidate source keys for the `amount` field, in source order. -/
def amountKeys : List String := ["amount", "Amount", "Сумма", "value"]

/-- Candidate source keys for the `merchant` field, in source order. -/
def merchantKeys : List String := ["merchant", "Merchant", "recipient", "payee", "Получатель"]

/-- Candidate source keys for the `category` field, in source order. -/
def categoryKeys : List String := ["category", "Category", "Категория"]

/-- Candidate source keys for the `description` field, in source order. -/
def descriptionKeys : List String := ["description", "Description", "note", "Описание"]

/-- Candidate source keys for the `external_id` field, in source order. -/
def externalIdKeys : List String := ["id", "transaction_id", "payment_id"]

/-- Candidate millisecond-timestamp keys of the webhook payload, in source
order. -/
def tsKeys : List String := ["timestamp", "transTime", "confirmTime"]

/-- Is the value a Python list or dict (the two shapes
`normalize_api_response` accepts)? -/
def isListOrDict : PyVal → Bool
  | .list _ => true
  | .dict _ => true
  | _ => false

/-! ### Lemmas about `or`-chains -/

/-- An `or`-chain returns the value of the first candidate key whose value
is truthy. -/
theorem chainGet_eq_of_find_some (raw : List (String × PyVal)) :
    ∀ (keys : List String) (k : String),
    keys.find? (fun k2 => truthy (pyGet raw k2)) = some k →
    chainGet raw keys = pyGet raw k := by
  intro keys
  induction keys with
  | nil => intro k h; simp at h
  | cons k0 rest ih =>
    intro k h
    by_cases h0 : truthy (pyGet raw k0)
    · have hstep : List.find? (fun k2 => truthy (pyGet raw k2)) (k0 :: rest)
          = some k0 := List.find?_cons_of_pos _ (by simpa using h0)
      rw [hstep] at h
      injection h with h
      subst h
      cases rest with
      | nil => rfl
      | cons k1 ks => simp [chainGet, pyOr, h0]
    · have hstep : List.find? (fun k2 => truthy (pyGet raw k2)) (k0 :: rest)
          = List.find? (fun k2 => truthy (pyGet raw k2)) rest :=
        List.find?_cons_of_neg _ (by simpa using h0)
      rw [hstep] at h
      cases rest with
      | nil => simp at h
      | cons k1 ks =>
        rw [chainGet, pyOr, if_neg h0]
        exact ih k h

/-- When no candidate key has a truthy value, an `or`-chain yields a falsy
value. -/
theorem chainGet_falsy_of_find_none (raw : List (String × PyVal)) :
    ∀ keys : List String,
    keys.find? (fun k2 => truthy (pyGet raw k2)) = Option.none →
    truthy (chainGet raw keys) = false := by
  intro keys
  induction keys with
  | nil => intro _; rfl
  | cons k0 rest ih =>
    intro h
    by_cases h0 : truthy (pyGet raw k0)
    · have hstep : List.find? (fun k2 => truthy (pyGet raw k2)) (k0 :: rest)
          = some k0 := List.find?_cons_of_pos _ (by simpa using h0)
      rw [hstep] at h
      exact absurd h (by simp)
    · have hstep : List.find? (fun k2 => truthy (pyGet raw k2)) (k0 :: rest)
          = List.find? (fun k2 => truthy (pyGet raw k2)) rest :=
        List.find?_cons_of_neg _ (by simpa using h0)
      rw [hstep] at h
      cases rest with
      | nil => simpa [chainGet] using h0
      | cons k1 ks =>
        rw [chainGet, pyOr, if_neg h0]
        exact ih h

/-! ### Lemmas about the batch-loader loop -/

/-- The dedup SELECT misses exactly when no visible row carries the hash. -/
theorem hashVisible_eq_false_iff (db : DBState) (h : String) :
    hashVisible db h = false
      ↔ ∀ s ∈ db.committed ++ db.staged, s.transaction_hash ≠ h := by
  simp only [hashVisible, List.any_eq_false, beq_iff_eq, ne_eq]

/-- Every row lands in exactly one of the three tallies: the loop adds the
batch length to the sum `saved + duplicates + length errors`. -/
theorem saveLoop_sum (env : SaveEnv) (uid : Int) (aid : Option Int) :
    ∀ (ts : List StdTxn) (idx : Nat) (db : DBState) (acc : SaveResult),
    ((saveLoop env uid aid ts idx db acc).2).saved
      + ((saveLoop env uid aid ts idx db acc).2).duplicates
      + ((saveLoop env uid aid ts idx db acc).2).errors.length
      = acc.saved + acc.duplicates + acc.errors.length + ts.length := by
  intro ts
  induction ts with
  | nil => intro idx db acc; simp [saveLoop]
  | cons txn rest ih =>
    intro idx db acc
    rw [saveLoop]
    cases henv : env.stageFails idx with
    | some msg =>
      rw [ih]
      simp
      omega
    | none =>
      by_cases hv : hashVisible db txn.transaction_hash
      · rw [if_pos hv, ih]
        simp
        omega
      · rw [if_neg hv, ih]
        simp
        omega

/-- When every transaction of the batch is already visible in storage and
no row raises, the loop changes nothing and counts only duplicates. -/
theorem saveLoop_all_dup (env : SaveEnv) (uid : Int) (aid : Option Int) :
    ∀ (ts : List StdTxn) (idx : Nat) (db : DBState) (acc : SaveResult),
    (∀ i, env.stageFails i = Option.none) →
    (∀ t ∈ ts, hashVisible db t.transaction_hash = true) →
    saveLoop env uid aid ts idx db acc
      = (db, ⟨acc.saved, acc.duplicates + ts.length, acc.errors⟩) := by
  intro ts
  induction ts with
  | nil => intro idx db acc _ _; simp [saveLoop]
  | cons txn rest ih =>
    intro idx db acc henv hvis
    rw [saveLoop, henv idx, if_pos (hvis txn (by simp))]
    rw [ih (idx + 1) db _ henv (fun t ht => hvis t (by simp [ht]))]
    simp [SaveResult.mk.injEq]
    omega

/-- When no row raises in the touched index range, every hash is fresh for
the visible storage, and the batch hashes are pairwise distinct, the loop
stages every transaction in order and counts only `saved`. -/
theorem saveLoop_all_fresh (env : SaveEnv) (uid : Int) (aid : Option Int) :
    ∀ (ts : List StdTxn) (idx : Nat) (db : DBState) (acc : SaveResult),
    (∀ i, idx ≤ i → i < idx + ts.length → env.stageFails i = Option.none) →
    ((ts.map (fun t => t.transaction_hash)).Nodup) →
    (∀ t ∈ ts, ∀ s ∈ db.committed ++ db.staged,
      s.transaction_hash ≠ t.transaction_hash) →
    saveLoop env uid aid ts idx db acc
      = ({ committed := db.committed, staged := db.staged ++ ts.map (mkStored uid aid) },
         ⟨acc.saved + ts.length, acc.duplicates, acc.errors⟩) := by
  intro ts
  induction ts with
  | nil => intro idx db acc _ _ _; simp [saveLoop]
  | cons txn rest ih =>
    intro idx db acc henv hnodup hfresh
    have hnone : env.stageFails idx = Option.none :=
      henv idx (Nat.le_refl idx) (by simp)
    have hnv : hashVisible db txn.transaction_hash = false :=
      (hashVisible_eq_false_iff db _).2 (hfresh txn (by simp))
    rw [saveLoop, hnone, if_neg (by simp [hnv])]
    have hnodup' : txn.transaction_hash ∉ rest.map (fun t => t.transaction_hash)
        ∧ (rest.map (fun t => t.transaction_hash)).Nodup := by
      rw [List.map_cons, List.nodup_cons] at hnodup
      exact hnodup
    rw [ih (idx + 1) _ _ (fun i h1 h2 => henv i (by omega) (by simp; omega))
      hnodup'.2 ?fresh]
    case fresh =>
      intro t ht s hs
      simp only [List.append_assoc, List.mem_append] at hs
      rcases hs with hs | hs | hs
      · exact hfresh t (by simp [ht]) s (by simp [hs])
      · exact hfresh t (by simp [ht]) s (by simp [hs])
      · simp at hs
        subst hs
        show txn.transaction_hash ≠ t.transaction_hash
        intro hEq
        exact hnodup'.1 (hEq ▸ List.mem_map_of_mem (fun t => t.transaction_hash) ht)
    simp [SaveResult.mk.injEq, DBState.mk.injEq]
    omega

/-- Splitting the loop across an appended batch. -/
theorem saveLoop_append (env : SaveEnv) (uid : Int) (aid : Option Int) :
    ∀ (l1 l2 : List StdTxn) (idx : Nat) (db : DBState) (acc : SaveResult),
    saveLoop env uid aid (l1 ++ l2) idx db acc
      = saveLoop env uid aid l2 (idx + l1.length)
          (saveLoop env uid aid l1 idx db acc).1
          (saveLoop env uid aid l1 idx db acc).2 := by
  intro l1
  induction l1 with
  | nil => intro l2 idx db acc; simp [saveLoop]
  | cons txn rest ih =>
    intro l2 idx db acc
    have harith : idx + 1 + rest.length = idx + (rest.length + 1) := by omega
    cases henv : env.stageFails idx with
    | some msg =>
      simp only [List.cons_append, saveLoop, henv, List.length_cons, List.append_eq]
      rw [ih, harith]
    | none =>
      by_cases hv : hashVisible db txn.transaction_hash
      · simp only [List.cons_append, saveLoop, henv, hv, if_true, List.length_cons,
          List.append_eq]
        rw [ih, harith]
      · simp only [List.cons_append, saveLoop, henv, hv, if_false, List.length_cons,
          Bool.false_eq_true, List.append_eq]
        rw [ih, harith]

/-! ### Claim C1 — fingerprint determinism -/

/-- C1: for every pair of canonical transactions whose `date`, `amount`,
`merchant` and `source` fields are equal, `generate_hash` returns the same
string, regardless of any difference in `category`, `description`,
`external_id`, `raw_payload` or any other field. -/
theorem C1_fingerprint_determinism (t1 t2 : StdTxn)
    (hd : t1.date = t2.date) (ha : t1.amount = t2.amount)
    (hm : t1.merchant = t2.merchant) (hs : t1.source = t2.source) :
    generate_hash t1 = generate_hash t2 := by
  unfold generate_hash
  rw [hd, ha, hm, hs]

/-- Witness for C1: two concrete canonical transactions differing in
category, description, external id, raw payload and stored hash, but
agreeing on the four identifying fields, receive the same fingerprint. -/
theorem C1_fingerprint_determinism_witness :
    generate_hash
      { date := .str "2024-01-01", amount := .str "10", merchant := .str "A",
        category := .str "Food", description := .str "lunch",
        external_id := PyVal.none, raw_payload := PyVal.none,
        source := "csv", transaction_hash := "" }
    = generate_hash
      { date := .str "2024-01-01", amount := .str "10", merchant := .str "A",
        category := .str "Transport", description := .str "taxi",
        external_id := .str "99", raw_payload := .dict [("x", .int 1)],
        source := "csv", transaction_hash := "zzz" } :=
  C1_fingerprint_determinism _ _ rfl rfl rfl rfl

/-! ### Claim C10 — the pipe-joined key is not injective -/

/-- C10: the fingerprint conflates distinct identifying tuples: the four
fields are joined with an unescaped pipe before hashing, so merchant
`"m|x"` with amount `"1"` collides with merchant `"x"` with amount
`"1|m"`. -/
theorem C10_fingerprint_collision :
    ∃ t1 t2 : StdTxn,
      (t1.date, t1.amount, t1.merchant, t1.source)
        ≠ (t2.date, t2.amount, t2.merchant, t2.source)
      ∧ generate_hash t1 = generate_hash t2 := by
  refine ⟨{ date := PyVal.none, amount := .str "1", merchant := .str "m|x",
            category := PyVal.none, description := PyVal.none,
            external_id := PyVal.none, raw_payload := PyVal.none,
            source := "csv", transaction_hash := "" },
          { date := PyVal.none, amount := .str "1|m", merchant := .str "x",
            category := PyVal.none, description := PyVal.none,
            external_id := PyVal.none, raw_payload := PyVal.none,
            source := "csv", transaction_hash := "" }, ?_, ?_⟩
  · intro h
    have hamount : PyVal.str "1" = PyVal.str "1|m" := congrArg (fun p => p.2.1) h
    have : ("1" : String) = "1|m" := PyVal.str.inj hamount
    exact absurd this (by decide)
  · rfl

/-! ### Claim C3 — commit failure triggers rollback and re-raise -/

/-- C3: when the final commit fails, every insertion staged during the call
is rolled back (the committed rows are exactly those from before the call)
and the failure is re-raised, so the caller receives no result dict; when
the commit succeeds, row-level problems never raise out of
`save_to_database`. -/
theorem C3_commit_failure_rollback (transactions : List StdTxn) (user_id : Int)
    (account_id : Option Int) (env : SaveEnv) (db : DBState)
    (hcf : env.commitFails = true) :
    save_to_database transactions user_id account_id env db
      = .error { committed := db.committed, staged := [] }
    ∧ ∀ env2 : SaveEnv, env2.commitFails = false →
        ∃ r db2, save_to_database transactions user_id account_id env2 db
          = .ok (r, db2) := by
  constructor
  · rw [save_to_database, hcf]
    simp
  · intro env2 h2
    rw [save_to_database, h2]
    exact ⟨_, _, rfl⟩

/-- Witness for C3: a concrete one-row call against an environment whose
commit raises is rejected with the rolled-back state, while the same call
under a working commit returns a result dict. -/
theorem C3_commit_failure_rollback_witness :
    (save_to_database
        [{ date := PyVal.none, amount := .str "5", merchant := .str "M",
           category := PyVal.none, description := PyVal.none,
           external_id := PyVal.none, raw_payload := PyVal.none,
           source := "csv", transaction_hash := "h1" }]
        1 Option.none ⟨fun _ => Option.none, true⟩ ⟨[], []⟩
      = .error ⟨[], []⟩)
    ∧ ∃ r db2, save_to_database
        [{ date := PyVal.none, amount := .str "5", merchant := .str "M",
           category := PyVal.none, description := PyVal.none,
           external_id := PyVal.none, raw_payload := PyVal.none,
           source := "csv", transaction_hash := "h1" }]
        1 Option.none ⟨fun _ => Option.none, false⟩ ⟨[], []⟩
      = .ok (r, db2) := by
  have h := C3_commit_failure_rollback
    [{ date := PyVal.none, amount := .str "5", merchant := .str "M",
       category := PyVal.none, description := PyVal.none,
       external_id := PyVal.none, raw_payload := PyVal.none,
       source := "csv", transaction_hash := "h1" }]
    1 Option.none ⟨fun _ => Option.none, true⟩ ⟨[], []⟩ rfl
  exact ⟨h.1, h.2 ⟨fun _ => Option.none, false⟩ rfl⟩

/-! ### Claim C7 — every record lands in exactly one tally -/

/-- C7: whenever the commit succeeds, `save_to_database` accounts for each
input record in exactly one of the three tallies:
`saved + duplicates + length errors` equals the batch size. -/
theorem C7_tally_conservation (transactions : List StdTxn) (user_id : Int)
    (account_id : Option Int) (env : SaveEnv) (db : DBState)
    (r : SaveResult) (db2 : DBState)
    (h : save_to_database transactions user_id account_id env db = .ok (r, db2)) :
    r.saved + r.duplicates + r.errors.length = transactions.length := by
  rw [save_to_database] at h
  by_cases hcf : env.commitFails
  · rw [if_pos hcf] at h
    exact absurd h (by simp)
  · rw [if_neg hcf] at h
    have hr : (saveLoop env user_id account_id transactions 1 db ⟨0, 0, []⟩).2 = r :=
      congrArg Prod.fst (Except.ok.inj h)
    rw [← hr, saveLoop_sum]
    simp

/-- Witness for C7: a concrete two-row batch (one fresh row, one already
stored) commits successfully and its tallies sum to the batch size. -/
theorem C7_tally_conservation_witness :
    (1 : Nat) + 1 + ([] : List String).length
      = ([{ date := PyVal.none, amount := .str "5", merchant := .str "M",
            category := PyVal.none, description := PyVal.none,
            external_id := PyVal.none, raw_payload := PyVal.none,
            source := "csv", transaction_hash := "h1" },
          { date := PyVal.none, amount := .str "6", merchant := .str "N",
            category := PyVal.none, description := PyVal.none,
            external_id := PyVal.none, raw_payload := PyVal.none,
            source := "csv", transaction_hash := "h2" }] : List StdTxn).length := by
  have h := C7_tally_conservation
    [{ date := PyVal.none, amount := .str "5", merchant := .str "M",
       category := PyVal.none, description := PyVal.none,
       external_id := PyVal.none, raw_payload := PyVal.none,
       source := "csv", transaction_hash := "h1" },
     { date := PyVal.none, amount := .str "6", merchant := .str "N",
       category := PyVal.none, description := PyVal.none,
       external_id := PyVal.none, raw_payload := PyVal.none,
       source := "csv", transaction_hash := "h2" }]
    1 Option.none ⟨fun _ => Option.none, false⟩
    ⟨[{ owner_id := 1, account_id := Option.none, amount := "6",
        merchant := .str "N", category := PyVal.none,
        description := PyVal.none, external_id := PyVal.none,
        raw_payload := PyVal.none, transaction_hash := "h2",
        processed := false }], []⟩
    ⟨1, 1, []⟩ _ rfl
  exact h

/-! ### Claim C8 — encoding fallback of the CSV reader -/

/-- C8: `read_csv_file` decodes with UTF-8; exactly when that fails it
retries with windows-1251; it fails with a decode error only when both
decodings fail, and bytes invalid under UTF-8 but valid under the fallback
are decoded and parsed. -/
theorem C8_encoding_fallback (file_bytes : List Nat) :
    (∀ text, utf8Decode file_bytes = some text →
      read_csv_file file_bytes
        = .ok ((dictReaderRows text).filter (fun r => r.any (fun kv => truthy kv.2))))
    ∧ (∀ text, utf8Decode file_bytes = Option.none →
        cp1251Decode file_bytes = some text →
        read_csv_file file_bytes
          = .ok ((dictReaderRows text).filter (fun r => r.any (fun kv => truthy kv.2))))
    ∧ (utf8Decode file_bytes = Option.none →
        cp1251Decode file_bytes = Option.none →
        read_csv_file file_bytes = .error ReadError.decodeError) := by
  refine ⟨fun text h1 => ?_, fun text h1 h2 => ?_, fun h1 h2 => ?_⟩
  · rw [read_csv_file, h1]
  · rw [read_csv_file, h1, h2]
  · rw [read_csv_file, h1, h2]

/-- Witness for C8: a pure-ASCII file decodes as UTF-8; the byte `0xC8`
(invalid alone under UTF-8, the Cyrillic И under windows-1251) decodes via
the fallback and parses; the byte `0x98` (invalid under both) fails with
the decode error. -/
theorem C8_encoding_fallback_witness :
    (read_csv_file [97, 10, 120] = .ok [[("a", PyVal.str "x")]])
    ∧ (read_csv_file [200, 10, 120] = .ok [[("И", PyVal.str "x")]])
    ∧ (read_csv_file [152] = .error ReadError.decodeError) := by
  refine ⟨?_, ?_, ?_⟩
  · have h := (C8_encoding_fallback [97, 10, 120]).1 ['a', '\n', 'x'] (by rfl)
    exact h
  · have h := (C8_encoding_fallback [200, 10, 120]).2.1 ['И', '\n', 'x'] (by rfl) (by rfl)
    exact h
  · exact (C8_encoding_fallback [152]).2.2 (by rfl) (by rfl)

/-! ### Claim C5 — API response-shape normalization -/

/-- Counterexample to C5 as stated: with `data` bound to the empty list and
`transactions` bound to a non-empty list, the first *present* key is
`data`, yet `normalize_api_response` returns the `transactions` value
(Python `or` skips present-but-falsy values). -/
theorem C5_counterexample :
    normalize_api_response
        (.dict [("data", .list []), ("transactions", .list [.int 1])])
      = .ok (.list [.int 1])
    ∧ PyVal.list [.int 1] ≠ PyVal.list [] := by
  constructor
  · rfl
  · intro h
    have := PyVal.list.inj h
    simp at this

/-- C5 (amended): a sequence maps to itself; for a mapping the candidates
`data`, `transactions`, `result.transactions` are tried in order and the
first *truthy* (present and non-empty) value wins — a present-but-falsy
value is skipped — with the empty sequence returned when no candidate is
truthy; a value that is neither sequence nor mapping fails with the
unexpected-shape error. -/
theorem C5_shape_normalization (v : PyVal) :
    (∀ xs, v = .list xs → normalize_api_response v = .ok (.list xs))
    ∧ (∀ fs, v = .dict fs →
        (truthy (pyGet fs "data") = true →
          normalize_api_response v = .ok (pyGet fs "data"))
        ∧ (truthy (pyGet fs "data") = false →
            truthy (pyGet fs "transactions") = true →
            normalize_api_response v = .ok (pyGet fs "transactions"))
        ∧ (∀ rfs, truthy (pyGet fs "data") = false →
            truthy (pyGet fs "transactions") = false →
            pyGetD fs "result" (.dict []) = .dict rfs →
            normalize_api_response v
              = .ok (if truthy (pyGet rfs "transactions") = true
                  then pyGet rfs "transactions" else .list [])))
    ∧ (isListOrDict v = false →
        normalize_api_response v = .error PyErr.valueError) := by
  refine ⟨fun xs hv => ?_, fun fs hv => ?_, fun hscalar => ?_⟩
  · subst hv; rfl
  · subst hv
    refine ⟨fun h1 => ?_, fun h1 h2 => ?_, fun rfs h1 h2 h3 => ?_⟩
    · rw [normalize_api_response, if_pos h1]
    · rw [normalize_api_response, if_neg (by simp [h1]), if_pos h2]
    · rw [normalize_api_response, if_neg (by simp [h1]), if_neg (by simp [h2]), h3]
  · cases v <;> first | rfl | simp [isListOrDict] at hscalar

/-- Witness for C5: the three recognized shapes all normalize to the
embedded sequence, an unrecognized mapping yields the empty sequence, and
a scalar body is rejected. -/
theorem C5_shape_normalization_witness :
    (normalize_api_response (.list [.int 5]) = .ok (.list [.int 5]))
    ∧ (normalize_api_response (.dict [("data", .list [.int 7])])
        = .ok (.list [.int 7]))
    ∧ (normalize_api_response (.dict [("transactions", .list [.int 8])])
        = .ok (.list [.int 8]))
    ∧ (normalize_api_response
          (.dict [("result", .dict [("transactions", .list [.int 9])])])
        = .ok (.list [.int 9]))
    ∧ (normalize_api_response (.dict [("foo", .str "bar")]) = .ok (.list []))
    ∧ (normalize_api_response (.int 3) = .error PyErr.valueError) := by
  refine ⟨(C5_shape_normalization _).1 _ rfl,
          ((C5_shape_normalization _).2.1 _ rfl).1 (by rfl),
          ((C5_shape_normalization _).2.1 _ rfl).2.1 (by rfl) (by rfl), ?_, ?_,
          (C5_shape_normalization _).2.2 (by rfl)⟩
  · have h := ((C5_shape_normalization
        (.dict [("result", .dict [("transactions", .list [.int 9])])])).2.1
        [("result", .dict [("transactions", .list [.int 9])])] rfl).2.2
      [("transactions", .list [.int 9])] (by rfl) (by rfl) (by rfl)
    simpa using h
  · have h := ((C5_shape_normalization (.dict [("foo", .str "bar")])).2.1
        [("foo", .str "bar")] rfl).2.2 [] (by rfl) (by rfl) (by rfl)
    simpa using h

/-! ### Claim C6 — fallback-chain field resolution in `to_standard_format` -/

/-- Counterexample to C6 as stated: with the first-listed candidate
`amount` present but bound to the empty string, the resolved amount is the
value of the later candidate `Amount`, not the first present candidate's
empty value. -/
theorem C6_counterexample :
    pyGet [("amount", PyVal.str ""), ("Amount", PyVal.str "5")] "amount"
        = PyVal.str ""
    ∧ (to_standard_format
          [("amount", PyVal.str ""), ("Amount", PyVal.str "5")] "csv").amount
        = PyVal.str "5"
    ∧ PyVal.str "5" ≠ PyVal.str "" := by
  refine ⟨rfl, rfl, fun h => ?_⟩
  have := PyVal.str.inj h
  exact absurd this (by decide)

/-- C6 (amended): each canonical field is resolved by trying its ordered
candidate keys and taking the value of the first candidate whose value is
*truthy* (present and non-empty/non-zero) — so a present-but-falsy first
candidate is skipped — and the field is left falsy (empty) when no
candidate has a truthy value; a truthy `external_id` is stringified. -/
theorem C6_field_resolution (raw_row : List (String × PyVal)) (source : String) :
    (∀ k, dateKeys.find? (fun k2 => truthy (pyGet raw_row k2)) = some k →
      (to_standard_format raw_row source).date = pyGet raw_row k)
    ∧ (dateKeys.find? (fun k2 => truthy (pyGet raw_row k2)) = Option.none →
        truthy (to_standard_format raw_row source).date = false)
    ∧ (∀ k, amountKeys.find? (fun k2 => truthy (pyGet raw_row k2)) = some k →
        (to_standard_format raw_row source).amount = pyGet raw_row k)
    ∧ (amountKeys.find? (fun k2 => truthy (pyGet raw_row k2)) = Option.none →
        truthy (to_standard_format raw_row source).amount = false)
    ∧ (∀ k, merchantKeys.find? (fun k2 => truthy (pyGet raw_row k2)) = some k →
        (to_standard_format raw_row source).merchant = pyGet raw_row k)
    ∧ (merchantKeys.find? (fun k2 => truthy (pyGet raw_row k2)) = Option.none →
        truthy (to_standard_format raw_row source).merchant = false)
    ∧ (∀ k, categoryKeys.find? (fun k2 => truthy (pyGet raw_row k2)) = some k →
        (to_standard_format raw_row source).category = pyGet raw_row k)
    ∧ (categoryKeys.find? (fun k2 => truthy (pyGet raw_row k2)) = Option.none →
        truthy (to_standard_format raw_row source).category = false)
    ∧ (∀ k, descriptionKeys.find? (fun k2 => truthy (pyGet raw_row k2)) = some k →
        (to_standard_format raw_row source).description = pyGet raw_row k)
    ∧ (descriptionKeys.find? (fun k2 => truthy (pyGet raw_row k2)) = Option.none →
        truthy (to_standard_format raw_row source).description = false)
    ∧ (∀ k, externalIdKeys.find? (fun k2 => truthy (pyGet raw_row k2)) = some k →
        (to_standard_format raw_row source).external_id
          = PyVal.str (pyStr (pyGet raw_row k)))
    ∧ (externalIdKeys.find? (fun k2 => truthy (pyGet raw_row k2)) = Option.none →
        (to_standard_format raw_row source).external_id = PyVal.none) := by
  have hdate : (to_standard_format raw_row source).date
      = chainGet raw_row dateKeys := rfl
  have hamount : (to_standard_format raw_row source).amount
      = chainGet raw_row amountKeys := rfl
  have hmerchant : (to_standard_format raw_row source).merchant
      = chainGet raw_row merchantKeys := rfl
  have hcategory : (to_standard_format raw_row source).category
      = chainGet raw_row categoryKeys := rfl
  have hdescription : (to_standard_format raw_row source).description
      = chainGet raw_row descriptionKeys := rfl
  have hext : (to_standard_format raw_row source).external_id
      = (if truthy (chainGet raw_row externalIdKeys)
          then PyVal.str (pyStr (chainGet raw_row externalIdKeys)) else PyVal.none) := rfl
  refine ⟨fun k h => ?_, fun h => ?_, fun k h => ?_, fun h => ?_, fun k h => ?_,
    fun h => ?_, fun k h => ?_, fun h => ?_, fun k h => ?_, fun h => ?_,
    fun k h => ?_, fun h => ?_⟩
  · rw [hdate, chainGet_eq_of_find_some raw_row _ k h]
  · rw [hdate, chainGet_falsy_of_find_none raw_row _ h]
  · rw [hamount, chainGet_eq_of_find_some raw_row _ k h]
  · rw [hamount, chainGet_falsy_of_find_none raw_row _ h]
  · rw [hmerchant, chainGet_eq_of_find_some raw_row _ k h]
  · rw [hmerchant, chainGet_falsy_of_find_none raw_row _ h]
  · rw [hcategory, chainGet_eq_of_find_some raw_row _ k h]
  · rw [hcategory, chainGet_falsy_of_find_none raw_row _ h]
  · rw [hdescription, chainGet_eq_of_find_some raw_row _ k h]
  · rw [hdescription, chainGet_falsy_of_find_none raw_row _ h]
  · rw [hext, chainGet_eq_of_find_some raw_row _ k h,
      if_pos (List.find?_some h)]
  · rw [hext, if_neg (by simp [chainGet_falsy_of_find_none raw_row _ h])]

/-- Witness for C6: a raw map holding both the English and the localized
amount key resolves the amount to the first-listed truthy candidate, and a
raw map without any category candidate leaves the category falsy. -/
theorem C6_field_resolution_witness :
    ((to_standard_format [("amount", PyVal.str "7"), ("Сумма", PyVal.str "9")]
        "csv").amount
      = pyGet [("amount", PyVal.str "7"), ("Сумма", PyVal.str "9")] "amount")
    ∧ truthy ((to_standard_format [("amount", PyVal.str "7"),
        ("Сумма", PyVal.str "9")] "csv").category) = false := by
  have h := C6_field_resolution
    [("amount", PyVal.str "7"), ("Сумма", PyVal.str "9")] "csv"
  exact ⟨h.2.2.1 "amount" (by rfl), h.2.2.2.2.2.2.2.1 (by rfl)⟩

/-! ### Claim C9 — the webhook translator's record -/

/-- Counterexample to C9 as stated: with the first candidate field
`timestamp` present and bound to `0` (a valid millisecond epoch), the
produced record's date is `None`, although the claim allows `None` only
when no candidate field is present. -/
theorem C9_counterexample :
    pyGet [("timestamp", PyVal.int 0)] "timestamp" = PyVal.int 0
    ∧ uzum_webhook_to_standard [("timestamp", PyVal.int 0)] "p2p"
        = .ok { date := PyVal.none, amount := PyVal.none,
                merchant := .str "Uzum Bank", category := PyVal.none,
                description := .str "Uzum webhook: p2p",
                external_id := PyVal.none,
                raw_payload := .dict [("timestamp", PyVal.int 0)],
                source := "uzum_webhook" } := by
  exact ⟨rfl, rfl⟩

/-- C9 (amended): every successful call returns exactly one record whose
merchant is the fixed label, whose source is the fixed tag
`uzum_webhook`, whose amount and description are packaged from the
payload, and whose date is the instant converted from the first *truthy*
(present and non-zero) of `timestamp`, `transTime`, `confirmTime` in that
order — `None` when no candidate is truthy. -/
theorem C9_webhook_record (payload : List (String × PyVal)) (event_type : String)
    (rec : UzumRecord)
    (h : uzum_webhook_to_standard payload event_type = .ok rec) :
    rec.merchant = PyVal.str "Uzum Bank"
    ∧ rec.source = "uzum_webhook"
    ∧ rec.amount = pyGet payload "amount"
    ∧ rec.description = PyVal.str ("Uzum webhook: " ++ event_type)
    ∧ (∀ k n, tsKeys.find? (fun k2 => truthy (pyGet payload k2)) = some k →
        pyGet payload k = PyVal.int n → rec.date = PyVal.instantIso n)
    ∧ (tsKeys.find? (fun k2 => truthy (pyGet payload k2)) = Option.none →
        rec.date = PyVal.none) := by
  have hchain : (pyOr (pyGet payload "timestamp")
      (pyOr (pyGet payload "transTime") (pyGet payload "confirmTime")))
      = chainGet payload tsKeys := rfl
  rw [uzum_webhook_to_standard, hchain] at h
  by_cases htr : truthy (chainGet payload tsKeys) = true
  · rw [if_pos htr] at h
    cases ham : asMs (chainGet payload tsKeys) with
    | none => rw [ham] at h; exact absurd h (by simp)
    | some n0 =>
      rw [ham] at h
      simp only [Except.ok.injEq] at h
      subst h
      refine ⟨rfl, rfl, rfl, rfl, fun k n hfind hget => ?_, fun hfind => ?_⟩
      · have hck := chainGet_eq_of_find_some payload tsKeys k hfind
        rw [hck, hget] at ham
        simp only [asMs, Option.some.injEq] at ham
        rw [← ham]
      · rw [chainGet_falsy_of_find_none payload tsKeys hfind] at htr
        exact absurd htr (by simp)
  · rw [if_neg htr] at h
    simp only [Except.ok.injEq] at h
    subst h
    refine ⟨rfl, rfl, rfl, rfl, fun k n hfind hget => ?_, fun _ => rfl⟩
    have hck := chainGet_eq_of_find_some payload tsKeys k hfind
    have hp := List.find?_some hfind
    rw [← hck] at hp
    exact absurd hp htr

/-- Witness for C9: a payload carrying only `transTime` yields the record
with the fixed merchant and source and the instant converted from that
field. -/
theorem C9_webhook_record_witness :
    ({ date := PyVal.instantIso 1700000000000, amount := PyVal.none,
       merchant := PyVal.str "Uzum Bank", category := PyVal.none,
       description := PyVal.str "Uzum webhook: p2p",
       external_id := PyVal.none,
       raw_payload := PyVal.dict [("transTime", PyVal.int 1700000000000)],
       source := "uzum_webhook" } : UzumRecord).merchant = PyVal.str "Uzum Bank"
    ∧ ({ date := PyVal.instantIso 1700000000000, amount := PyVal.none,
         merchant := PyVal.str "Uzum Bank", category := PyVal.none,
         description := PyVal.str "Uzum webhook: p2p",
         external_id := PyVal.none,
         raw_payload := PyVal.dict [("transTime", PyVal.int 1700000000000)],
         source := "uzum_webhook" } : UzumRecord).source = "uzum_webhook"
    ∧ ({ date := PyVal.instantIso 1700000000000, amount := PyVal.none,
         merchant := PyVal.str "Uzum Bank", category := PyVal.none,
         description := PyVal.str "Uzum webhook: p2p",
         external_id := PyVal.none,
         raw_payload := PyVal.dict [("transTime", PyVal.int 1700000000000)],
         source := "uzum_webhook" } : UzumRecord).date
        = PyVal.instantIso 1700000000000 := by
  have h := C9_webhook_record [("transTime", PyVal.int 1700000000000)] "p2p" _ rfl
  exact ⟨h.1, h.2.1, h.2.2.2.2.1 "transTime" 1700000000000 (by rfl) rfl⟩

/-! ### Claim C2 — idempotent re-ingestion at the storage layer -/

/-- C2: for CSV content whose rows yield canonical transactions with
pairwise-distinct fingerprints, none of which is already stored, ingesting
twice for the same owner and account (under an environment where no row
raises and commits succeed) yields `saved = N, duplicates = 0` on the
first call and `saved = 0, duplicates = N` on the second, and the second
call adds no stored records. -/
theorem C2_idempotent_reingestion (file_content : List Nat) (user_id : Int)
    (account_id : Option Int) (env1 env2 : SaveEnv) (db : DBState)
    (rows : List (List (String × PyVal)))
    (hrows : read_csv_file file_content = .ok rows)
    (hsf1 : env1.stageFails = fun _ => Option.none)
    (hcf1 : env1.commitFails = false)
    (hsf2 : env2.stageFails = fun _ => Option.none)
    (hcf2 : env2.commitFails = false)
    (hnodup : ((rows.map (fun row => to_standard_format row "csv")).map
        (fun t => t.transaction_hash)).Nodup)
    (hfresh : ∀ t ∈ rows.map (fun row => to_standard_format row "csv"),
        ∀ s ∈ db.committed, s.transaction_hash ≠ t.transaction_hash)
    (hstaged : db.staged = []) :
    ingest_from_csv file_content user_id account_id env1 db "csv"
      = .ok ({ total := rows.length, saved := rows.length,
               duplicates := 0, errors := [] },
          { committed := db.committed
              ++ (rows.map (fun row => to_standard_format row "csv")).map
                (mkStored user_id account_id),
            staged := [] })
    ∧ ingest_from_csv file_content user_id account_id env2
        { committed := db.committed
            ++ (rows.map (fun row => to_standard_format row "csv")).map
              (mkStored user_id account_id),
          staged := [] } "csv"
      = .ok ({ total := rows.length, saved := 0,
               duplicates := rows.length, errors := [] },
          { committed := db.committed
              ++ (rows.map (fun row => to_standard_format row "csv")).map
                (mkStored user_id account_id),
            staged := [] }) := by
  have hloop1 := saveLoop_all_fresh env1 user_id account_id
    (rows.map (fun row => to_standard_format row "csv")) 1 db ⟨0, 0, []⟩
    (fun i _ _ => by rw [hsf1]) hnodup
    (by intro t ht s hs
        rw [hstaged, List.append_nil] at hs
        exact hfresh t ht s hs)
  have hsave1 : save_to_database
      (rows.map (fun row => to_standard_format row "csv")) user_id account_id env1 db
      = .ok (⟨rows.length, 0, []⟩,
          { committed := db.committed
              ++ (rows.map (fun row => to_standard_format row "csv")).map
                (mkStored user_id account_id),
            staged := [] }) := by
    rw [save_to_database, hloop1]
    simp [hcf1, hstaged]
  have hvis : ∀ t ∈ rows.map (fun row => to_standard_format row "csv"),
      hashVisible
        { committed := db.committed
            ++ (rows.map (fun row => to_standard_format row "csv")).map
              (mkStored user_id account_id),
          staged := [] } t.transaction_hash = true := by
    intro t ht
    simp only [hashVisible, List.any_eq_true]
    refine ⟨mkStored user_id account_id t, ?_, by simp [mkStored]⟩
    show mkStored user_id account_id t
        ∈ (db.committed
            ++ (rows.map (fun row => to_standard_format row "csv")).map
              (mkStored user_id account_id)) ++ []
    exact List.mem_append_left _
      (List.mem_append_right _ (List.mem_map_of_mem _ ht))
  have hloop2 := saveLoop_all_dup env2 user_id account_id
    (rows.map (fun row => to_standard_format row "csv")) 1
    { committed := db.committed
        ++ (rows.map (fun row => to_standard_format row "csv")).map
          (mkStored user_id account_id),
      staged := [] } ⟨0, 0, []⟩
    (fun i => by rw [hsf2]) hvis
  have hsave2 : save_to_database
      (rows.map (fun row => to_standard_format row "csv")) user_id account_id env2
      { committed := db.committed
          ++ (rows.map (fun row => to_standard_format row "csv")).map
            (mkStored user_id account_id),
        staged := [] }
      = .ok (⟨0, rows.length, []⟩,
          { committed := db.committed
              ++ (rows.map (fun row => to_standard_format row "csv")).map
                (mkStored user_id account_id),
            staged := [] }) := by
    rw [save_to_database, hloop2]
    simp [hcf2]
  constructor
  · simp only [ingest_from_csv, hrows, hsave1]
  · simp only [ingest_from_csv, hrows, hsave2]

/-- Witness for C2: a concrete two-row CSV ingested twice against an
initially empty store saves both rows first and reports both as duplicates
second, leaving the store unchanged. -/
theorem C2_idempotent_reingestion_witness :
    ingest_from_csv
        (utf8Encode "date,amount,merchant\n2024-01-01,10,A\n2024-01-02,20,B\n")
        1 Option.none ⟨fun _ => Option.none, false⟩ ⟨[], []⟩ "csv"
      = .ok ({ total := 2, saved := 2, duplicates := 0, errors := [] },
          { committed :=
              ([[("date", PyVal.str "2024-01-01"), ("amount", PyVal.str "10"),
                 ("merchant", PyVal.str "A")],
                [("date", PyVal.str "2024-01-02"), ("amount", PyVal.str "20"),
                 ("merchant", PyVal.str "B")]].map
                  (fun row => to_standard_format row "csv")).map
                (mkStored 1 Option.none),
            staged := [] })
    ∧ ingest_from_csv
        (utf8Encode "date,amount,merchant\n2024-01-01,10,A\n2024-01-02,20,B\n")
        1 Option.none ⟨fun _ => Option.none, false⟩
        { committed :=
            ([[("date", PyVal.str "2024-01-01"), ("amount", PyVal.str "10"),
               ("merchant", PyVal.str "A")],
              [("date", PyVal.str "2024-01-02"), ("amount", PyVal.str "20"),
               ("merchant", PyVal.str "B")]].map
                (fun row => to_standard_format row "csv")).map
              (mkStored 1 Option.none),
          staged := [] } "csv"
      = .ok ({ total := 2, saved := 0, duplicates := 2, errors := [] },
          { committed :=
              ([[("date", PyVal.str "2024-01-01"), ("amount", PyVal.str "10"),
                 ("merchant", PyVal.str "A")],
                [("date", PyVal.str "2024-01-02"), ("amount", PyVal.str "20"),
                 ("merchant", PyVal.str "B")]].map
                  (fun row => to_standard_format row "csv")).map
                (mkStored 1 Option.none),
            staged := [] }) := by
  have h := C2_idempotent_reingestion
    (utf8Encode "date,amount,merchant\n2024-01-01,10,A\n2024-01-02,20,B\n")
    1 Option.none ⟨fun _ => Option.none, false⟩ ⟨fun _ => Option.none, false⟩
    ⟨[], []⟩
    [[("date", PyVal.str "2024-01-01"), ("amount", PyVal.str "10"),
      ("merchant", PyVal.str "A")],
     [("date", PyVal.str "2024-01-02"), ("amount", PyVal.str "20"),
      ("merchant", PyVal.str "B")]]
    (by rfl) rfl rfl rfl rfl (by decide) (by simp) rfl
  simpa using h

/-! ### Claim C4 — row-level failures are isolated -/

/-- C4: an exception raised while checking or staging a single record is
caught, recorded against that record's 1-based position, and aborts
nothing: with fresh pairwise-distinct hashes and the failure at position
`pre.length + 1`, every other record is still processed, yielding
`saved = n - 1`, `duplicates = 0`, exactly one error entry for the failing
position, and a commit persisting all other records. -/
theorem C4_row_error_isolation (pre post : List StdTxn) (tk : StdTxn)
    (user_id : Int) (account_id : Option Int) (env : SaveEnv) (db : DBState)
    (msg : String)
    (hsf : env.stageFails
      = fun i => if i = pre.length + 1 then some msg else Option.none)
    (hcf : env.commitFails = false)
    (hnodup : ((pre ++ tk :: post).map (fun t => t.transaction_hash)).Nodup)
    (hfresh : ∀ t ∈ pre ++ tk :: post, ∀ s ∈ db.committed,
        s.transaction_hash ≠ t.transaction_hash)
    (hstaged : db.staged = []) :
    save_to_database (pre ++ tk :: post) user_id account_id env db
      = .ok (⟨pre.length + post.length, 0, [rowError (pre.length + 1) msg]⟩,
          { committed := db.committed
              ++ (pre ++ post).map (mkStored user_id account_id),
            staged := [] }) := by
  have hnd := hnodup
  rw [List.map_append, List.nodup_append] at hnd
  obtain ⟨hndPre, hndRest, hdisj⟩ := hnd
  have hndPost : (post.map (fun t => t.transaction_hash)).Nodup := by
    rw [List.map_cons, List.nodup_cons] at hndRest
    exact hndRest.2
  have hloopPre : saveLoop env user_id account_id pre 1 db ⟨0, 0, []⟩
      = ({ committed := db.committed,
           staged := pre.map (mkStored user_id account_id) },
         ⟨pre.length, 0, []⟩) := by
    have h := saveLoop_all_fresh env user_id account_id pre 1 db ⟨0, 0, []⟩
      (fun i h1 h2 => by rw [hsf]; exact if_neg (by omega))
      hndPre
      (by intro t ht s hs
          rw [hstaged, List.append_nil] at hs
          exact hfresh t (List.mem_append_left _ ht) s hs)
    rw [h, hstaged]
    simp
  have hkmsg : env.stageFails (1 + pre.length) = some msg := by
    rw [hsf]
    exact if_pos (by omega)
  have hloopPost : saveLoop env user_id account_id post (pre.length + 2)
      { committed := db.committed,
        staged := pre.map (mkStored user_id account_id) }
      ⟨pre.length, 0, [rowError (pre.length + 1) msg]⟩
      = ({ committed := db.committed,
           staged := pre.map (mkStored user_id account_id)
             ++ post.map (mkStored user_id account_id) },
         ⟨pre.length + post.length, 0, [rowError (pre.length + 1) msg]⟩) := by
    have h := saveLoop_all_fresh env user_id account_id post (pre.length + 2)
      { committed := db.committed,
        staged := pre.map (mkStored user_id account_id) }
      ⟨pre.length, 0, [rowError (pre.length + 1) msg]⟩
      (fun i h1 h2 => by rw [hsf]; exact if_neg (by omega))
      hndPost
      (by intro t ht s hs
          rcases List.mem_append.1 hs with hs | hs
          · exact hfresh t (List.mem_append_right _ (List.mem_cons_of_mem _ ht)) s hs
          · obtain ⟨tp, htp, rfl⟩ := List.mem_map.1 hs
            show (mkStored user_id account_id tp).transaction_hash ≠ _
            have : tp.transaction_hash
                ∈ pre.map (fun t => t.transaction_hash) := List.mem_map_of_mem _ htp
            have hnotin := hdisj this
            simp only [List.map_cons, List.mem_cons, List.mem_map] at hnotin
            intro hEq
            exact hnotin (Or.inr ⟨t, ht, by simpa [mkStored] using hEq.symm⟩))
    rw [h]
  have e2 : 1 + pre.length = pre.length + 1 := Nat.add_comm 1 pre.length
  have e3 : pre.length + 1 + 1 = pre.length + 2 := rfl
  rw [save_to_database, saveLoop_append, hloopPre]
  dsimp only
  rw [saveLoop, hkmsg]
  dsimp only
  rw [List.nil_append, e2, e3, hloopPost]
  dsimp only
  rw [if_neg (by simp [hcf])]
  simp [List.map_append]

/-- Witness for C4: a batch of five fresh records where only the third
raises while being staged yields `saved = 4`, `duplicates = 0`, exactly
one error entry for position 3, and commits the other four. -/
theorem C4_row_error_isolation_witness :
    save_to_database
        [{ date := PyVal.none, amount := .str "1", merchant := .str "A",
           category := PyVal.none, description := PyVal.none,
           external_id := PyVal.none, raw_payload := PyVal.none,
           source := "csv", transaction_hash := "h1" },
         { date := PyVal.none, amount := .str "2", merchant := .str "B",
           category := PyVal.none, description := PyVal.none,
           external_id := PyVal.none, raw_payload := PyVal.none,
           source := "csv", transaction_hash := "h2" },
         { date := PyVal.none, amount := .str "3", merchant := .str "C",
           category := PyVal.none, description := PyVal.none,
           external_id := PyVal.none, raw_payload := PyVal.none,
           source := "csv", transaction_hash := "h3" },
         { date := PyVal.none, amount := .str "4", merchant := .str "D",
           category := PyVal.none, description := PyVal.none,
           external_id := PyVal.none, raw_payload := PyVal.none,
           source := "csv", transaction_hash := "h4" },
         { date := PyVal.none, amount := .str "5", merchant := .str "E",
           category := PyVal.none, description := PyVal.none,
           external_id := PyVal.none, raw_payload := PyVal.none,
           source := "csv", transaction_hash := "h5" }]
        7 (some 3) ⟨fun i => if i = 3 then some "boom" else Option.none, false⟩
        ⟨[], []⟩
      = .ok (⟨4, 0, ["Row 3: boom"]⟩,
          { committed :=
              [{ date := PyVal.none, amount := .str "1", merchant := .str "A",
                 category := PyVal.none, description := PyVal.none,
                 external_id := PyVal.none, raw_payload := PyVal.none,
                 source := "csv", transaction_hash := "h1" },
               { date := PyVal.none, amount := .str "2", merchant := .str "B",
                 category := PyVal.none, description := PyVal.none,
                 external_id := PyVal.none, raw_payload := PyVal.none,
                 source := "csv", transaction_hash := "h2" },
               { date := PyVal.none, amount := .str "4", merchant := .str "D",
                 category := PyVal.none, description := PyVal.none,
                 external_id := PyVal.none, raw_payload := PyVal.none,
                 source := "csv", transaction_hash := "h4" },
               { date := PyVal.none, amount := .str "5", merchant := .str "E",
                 category := PyVal.none, description := PyVal.none,
                 external_id := PyVal.none, raw_payload := PyVal.none,
                 source := "csv", transaction_hash := "h5" }].map
                (mkStored 7 (some 3)),
            staged := [] }) := by
  have h := C4_row_error_isolation
    [{ date := PyVal.none, amount := .str "1", merchant := .str "A",
       category := PyVal.none, description := PyVal.none,
       external_id := PyVal.none, raw_payload := PyVal.none,
       source := "csv", transaction_hash := "h1" },
     { date := PyVal.none, amount := .str "2", merchant := .str "B",
       category := PyVal.none, description := PyVal.none,
       external_id := PyVal.none, raw_payload := PyVal.none,
       source := "csv", transaction_hash := "h2" }]
    [{ date := PyVal.none, amount := .str "4", merchant := .str "D",
       category := PyVal.none, description := PyVal.none,
       external_id := PyVal.none, raw_payload := PyVal.none,
       source := "csv", transaction_hash := "h4" },
     { date := PyVal.none, amount := .str "5", merchant := .str "E",
       category := PyVal.none, description := PyVal.none,
       external_id := PyVal.none, raw_payload := PyVal.none,
       source := "csv", transaction_hash := "h5" }]
    { date := PyVal.none, amount := .str "3", merchant := .str "C",
      category := PyVal.none, description := PyVal.none,
      external_id := PyVal.none, raw_payload := PyVal.none,
      source := "csv", transaction_hash := "h3" }
    7 (some 3) ⟨fun i => if i = 3 then some "boom" else Option.none, false⟩
    ⟨[], []⟩ "boom" rfl rfl (by decide) (by simp) rfl
  simpa [rowError] using h

end FinPulse
